import Mathlib

/-!
# Movement-and-collision core of the `mavish` first-person demo

Shallow embedding of the locomotion/collision core of `src/main.cpp`
(player state, axis-aligned obstacle boxes, per-frame Walking and Noclip
updates, look/pitch clamping, horizontal push-out and ground detection).

All scalar quantities are modelled over `ℚ`: the C++ code computes with
32-bit floats, and the claims under study are about the branching logic and
exact constants of the algorithms, not about rounding.  Float literals
(`0.05f`, `0.1f`, `0.5f`, `0.01f`, `20.0f`, `8.0f`, `89.0f`) are carried as
the corresponding exact rationals.

The only parts not translated verbatim are the trigonometric direction
helpers (`GetForwardDirection`, `GetFlatForwardDirection`,
`Vector3Normalize`): they use `cosf`/`sinf`/`sqrtf`, which have no exact
rational counterpart.  Every function that consumes their output takes the
resulting direction (or the resulting frame displacement) as an explicit
argument instead, and every theorem below quantifies over that argument, so
nothing proved depends on a particular direction value.
-/

/-- 3D vector with rational components, mirroring raylib's `Vector3`. -/
structure Vec3 where
  x : ℚ
  y : ℚ
  z : ℚ
deriving DecidableEq, Repr

/-- `CollisionBox` of `main.cpp`: axis-aligned box given by center and full
size.  The two `Color` fields are rendering-only and omitted. -/
structure CollisionBox where
  position : Vec3
  size : Vec3
deriving DecidableEq, Repr

/-- raylib's `BoundingBox`: min and max corners. -/
structure BoundingBox where
  min : Vec3
  max : Vec3
deriving DecidableEq, Repr

/-- Physics constant `GRAVITY = 20.0f` (main.cpp line 173). -/
def GRAVITY : ℚ := 20

/-- Physics constant `JUMP_FORCE = 8.0f` (main.cpp line 174). -/
def JUMP_FORCE : ℚ := 8

/-- Physics constant `GROUND_LEVEL = 0.0f` (main.cpp line 175). -/
def GROUND_LEVEL : ℚ := 0

/-- `GetBoxBounds` (main.cpp lines 178-183): bounding box of a
`CollisionBox` from its center and full extents. -/
def GetBoxBounds (box : CollisionBox) : BoundingBox :=
  { min := { x := box.position.x - box.size.x / 2
             y := box.position.y - box.size.y / 2
             z := box.position.z - box.size.z / 2 }
    max := { x := box.position.x + box.size.x / 2
             y := box.position.y + box.size.y / 2
             z := box.position.z + box.size.z / 2 } }

/-- `ShouldApplyHorizontalCollision` (main.cpp lines 195-221): horizontal
AABB overlap with strict inequalities, then the standing-on-top exception
(feet at or above box top minus 0.1) and the head-below-bottom safety
check. -/
def ShouldApplyHorizontalCollision (playerPos : Vec3) (radius height : ℚ)
    (box : CollisionBox) : Bool :=
  let boxBounds := GetBoxBounds box
  let horizontalOverlap : Bool :=
    decide (playerPos.x + radius > boxBounds.min.x) &&
    decide (playerPos.x - radius < boxBounds.max.x) &&
    decide (playerPos.z + radius > boxBounds.min.z) &&
    decide (playerPos.z - radius < boxBounds.max.z)
  if !horizontalOverlap then false
  else
    let feetY := playerPos.y - height
    if feetY ≥ boxBounds.max.y - 1/10 then false
    else if playerPos.y < boxBounds.min.y then false
    else true

/-- `ResolveCollision` (main.cpp lines 224-245): signed overlaps on X and Z,
minimum-magnitude axis push-out (ties go to the Z branch because `<` is
false on equality). -/
def ResolveCollision (playerPos : Vec3) (radius height : ℚ)
    (box : CollisionBox) : Vec3 :=
  let boxBounds := GetBoxBounds box
  let overlapX1 := (playerPos.x + radius) - boxBounds.min.x
  let overlapX2 := boxBounds.max.x - (playerPos.x - radius)
  let overlapZ1 := (playerPos.z + radius) - boxBounds.min.z
  let overlapZ2 := boxBounds.max.z - (playerPos.z - radius)
  let minOverlapX := if overlapX1 < overlapX2 then -overlapX1 else overlapX2
  let minOverlapZ := if overlapZ1 < overlapZ2 then -overlapZ1 else overlapZ2
  if |minOverlapX| < |minOverlapZ| then
    { playerPos with x := playerPos.x + minOverlapX }
  else
    { playerPos with z := playerPos.z + minOverlapZ }

/-- `UpdateCameraLook` (main.cpp lines 248-257) acting on a (yaw, pitch)
pair: yaw += dx·sensitivity, pitch -= dy·sensitivity, then the two
sequential pitch clamps against 89 and -89. -/
def UpdateCameraLook (yaw pitch dx dy sensitivity : ℚ) : ℚ × ℚ :=
  let yaw1 := yaw + dx * sensitivity
  let pitch1 := pitch - dy * sensitivity
  let pitch2 := if pitch1 > 89 then 89 else pitch1
  let pitch3 := if pitch2 < -89 then -89 else pitch2
  (yaw1, pitch3)

/-- The mutable fields of `Player` (main.cpp lines 153-162) that the
per-frame updates touch, plus the session constants `height` and `radius`.
`yaw`/`pitch` are the look angles; `noclipMode` is handled by the caller
dispatching to the two update functions. -/
structure PlayerState where
  position : Vec3
  velocity : Vec3
  yaw : ℚ
  pitch : ℚ
  height : ℚ
  radius : ℚ
  isGrounded : Bool
deriving DecidableEq, Repr

/-- The horizontal-collision loop of `UpdateWalkingMode` (main.cpp lines
354-359): for each collider in list order, if
`ShouldApplyHorizontalCollision` holds at the current candidate position,
replace the candidate with `ResolveCollision`. -/
def resolveHorizontalCollisions (pos : Vec3) (radius height : ℚ)
    (colliders : List CollisionBox) : Vec3 :=
  colliders.foldl
    (fun p box =>
      if ShouldApplyHorizontalCollision p radius height box then
        ResolveCollision p radius height box
      else p)
    pos

/-- One collider's contribution to the ground scan of `UpdateWalkingMode`
(main.cpp lines 375-392): horizontal footprint test with radius margin,
feet within `[top - 0.5, top + 0.05]`, vertical velocity at most 0.01;
a qualifying top raises `groundY` when higher and sets `foundGround`. -/
def groundAccum (pos : Vec3) (radius height vy : ℚ) (acc : Bool × ℚ)
    (box : CollisionBox) : Bool × ℚ :=
  let bounds := GetBoxBounds box
  if pos.x + radius > bounds.min.x ∧ pos.x - radius < bounds.max.x ∧
     pos.z + radius > bounds.min.z ∧ pos.z - radius < bounds.max.z then
    let feetY := pos.y - height
    if feetY ≤ bounds.max.y + 1/20 ∧ feetY ≥ bounds.max.y - 1/2 then
      if vy ≤ 1/100 then
        (true, if bounds.max.y > acc.2 then bounds.max.y else acc.2)
      else acc
    else acc
  else acc

/-- The ground scan of `UpdateWalkingMode` (main.cpp lines 364-392):
start from the plane check `newPos.y - height ≤ GROUND_LEVEL + 0.05` with
`groundY = GROUND_LEVEL`, then fold `groundAccum` over the colliders in
list order.  Returns `(foundGround, groundY)`. -/
def findGround (pos : Vec3) (radius height vy : ℚ)
    (colliders : List CollisionBox) : Bool × ℚ :=
  colliders.foldl (groundAccum pos radius height vy)
    (decide (pos.y - height ≤ GROUND_LEVEL + 1/20), GROUND_LEVEL)

/-- The velocity of `UpdateWalkingMode` after horizontal intent, gravity
and jump (main.cpp lines 334-347): `velocity.x/z` snap to
`moveDir · currentSpeed`, gravity subtracts `GRAVITY · dt` from
`velocity.y` when airborne, and a jump while grounded sets `velocity.y` to
`JUMP_FORCE`. -/
def walkVelocity (p : PlayerState) (moveDir : Vec3) (currentSpeed : ℚ)
    (spacePressed : Bool) (dt : ℚ) : Vec3 :=
  let vel1 : Vec3 :=
    { x := moveDir.x * currentSpeed, y := p.velocity.y
      z := moveDir.z * currentSpeed }
  let vel2 : Vec3 :=
    if p.isGrounded then vel1 else { vel1 with y := vel1.y - GRAVITY * dt }
  if spacePressed && p.isGrounded then { vel2 with y := JUMP_FORCE } else vel2

/-- The candidate position of `UpdateWalkingMode` after horizontal
integration, per-obstacle horizontal resolution and vertical displacement
(main.cpp lines 349-362). -/
def walkCandidate (p : PlayerState) (moveDir : Vec3) (currentSpeed : ℚ)
    (spacePressed : Bool) (dt : ℚ) (colliders : List CollisionBox) : Vec3 :=
  let vel3 := walkVelocity p moveDir currentSpeed spacePressed dt
  let newPos1 : Vec3 :=
    { x := p.position.x + vel3.x * dt, y := p.position.y
      z := p.position.z + vel3.z * dt }
  let newPos2 := resolveHorizontalCollisions newPos1 p.radius p.height colliders
  { newPos2 with y := newPos2.y + vel3.y * dt }

/-- `UpdateWalkingMode` (main.cpp lines 310-404), assembled from
`UpdateCameraLook`, `walkVelocity`, `walkCandidate` and `findGround`.
`mouseDx`/`mouseDy` and `sensitivity` feed the shared look update;
`moveDir` stands for the normalized flat move direction computed from keys
and yaw on lines 316-332 (trigonometric, hence taken as an argument);
`currentSpeed` is the move speed after the optional sprint multiplier;
`spacePressed` is the edge-triggered jump key; `dt` is the frame delta
time.  The source's line 346 (`isGrounded = false` inside the jump branch)
has no effect on the frame's final state because lines 395-401 reassign
`isGrounded` on every path; it is therefore not carried separately here. -/
def UpdateWalkingMode (p : PlayerState) (mouseDx mouseDy sensitivity : ℚ)
    (moveDir : Vec3) (currentSpeed : ℚ) (spacePressed : Bool) (dt : ℚ)
    (colliders : List CollisionBox) : PlayerState :=
  let look := UpdateCameraLook p.yaw p.pitch mouseDx mouseDy sensitivity
  let vel3 := walkVelocity p moveDir currentSpeed spacePressed dt
  let newPos3 := walkCandidate p moveDir currentSpeed spacePressed dt colliders
  let ground := findGround newPos3 p.radius p.height vel3.y colliders
  let landing := ground.1 && decide (vel3.y ≤ 1/100)
  { p with
    position := if landing then { newPos3 with y := ground.2 + p.height } else newPos3
    velocity := if landing then { vel3 with y := 0 } else vel3
    yaw := look.1, pitch := look.2
    isGrounded := landing }

/-- `UpdateNoclipMode` (main.cpp lines 278-307).  `moveDelta` stands for the
displacement computed on lines 283-302 from the trigonometric forward/right
vectors, key states and sprint scaling (taken as an argument); position
advances by it, velocity is reset to zero and `isGrounded` to false. -/
def UpdateNoclipMode (p : PlayerState) (mouseDx mouseDy sensitivity : ℚ)
    (moveDelta : Vec3) : PlayerState :=
  let look := UpdateCameraLook p.yaw p.pitch mouseDx mouseDy sensitivity
  { p with
    position := { x := p.position.x + moveDelta.x
                  y := p.position.y + moveDelta.y
                  z := p.position.z + moveDelta.z }
    velocity := { x := 0, y := 0, z := 0 }
    yaw := look.1, pitch := look.2
    isGrounded := false }

/-- The center cube of the scene (main.cpp lines 473-478): center
`(0, 1, 0)`, full size `(2, 2, 2)`. -/
def centerCube : CollisionBox :=
  { position := { x := 0, y := 1, z := 0 }, size := { x := 2, y := 2, z := 2 } }

/-! ## Helper lemmas -/

theorem UpdateCameraLook_pitch_mem (yaw pitch dx dy s : ℚ) :
    -89 ≤ (UpdateCameraLook yaw pitch dx dy s).2 ∧
      (UpdateCameraLook yaw pitch dx dy s).2 ≤ 89 := by
  unfold UpdateCameraLook
  dsimp only
  split_ifs <;> constructor <;> linarith

theorem UpdateWalkingMode_pitch_eq (p : PlayerState)
    (dx dy s : ℚ) (moveDir : Vec3) (speed : ℚ) (space : Bool) (dt : ℚ)
    (colliders : List CollisionBox) :
    (UpdateWalkingMode p dx dy s moveDir speed space dt colliders).pitch =
      (UpdateCameraLook p.yaw p.pitch dx dy s).2 := by
  rfl

theorem UpdateNoclipMode_pitch_eq (p : PlayerState)
    (dx dy s : ℚ) (moveDelta : Vec3) :
    (UpdateNoclipMode p dx dy s moveDelta).pitch =
      (UpdateCameraLook p.yaw p.pitch dx dy s).2 := rfl

/-! ## Claim theorems -/

/-- C4: for every pointer delta `(dx, dy)`, every sensitivity scalar and
every prior pitch, the pitch resulting from the look update
(`yaw += dx·s`, `pitch -= dy·s`, then clamp) lies in `[-89, 89]`, and this
invariant is maintained by both the Walking and the Noclip per-frame
updates. -/
theorem pitch_clamp_invariant (p : PlayerState)
    (dx dy s yaw pitch : ℚ) (moveDir moveDelta : Vec3) (speed : ℚ)
    (space : Bool) (dt : ℚ) (colliders : List CollisionBox) :
    (-89 ≤ (UpdateCameraLook yaw pitch dx dy s).2 ∧
      (UpdateCameraLook yaw pitch dx dy s).2 ≤ 89) ∧
    (-89 ≤ (UpdateWalkingMode p dx dy s moveDir speed space dt colliders).pitch ∧
      (UpdateWalkingMode p dx dy s moveDir speed space dt colliders).pitch ≤ 89) ∧
    (-89 ≤ (UpdateNoclipMode p dx dy s moveDelta).pitch ∧
      (UpdateNoclipMode p dx dy s moveDelta).pitch ≤ 89) := by
  refine ⟨UpdateCameraLook_pitch_mem yaw pitch dx dy s, ?_, ?_⟩
  · rw [UpdateWalkingMode_pitch_eq]
    exact UpdateCameraLook_pitch_mem p.yaw p.pitch dx dy s
  · rw [UpdateNoclipMode_pitch_eq]
    exact UpdateCameraLook_pitch_mem p.yaw p.pitch dx dy s

/-- C5: after every Noclip-mode per-frame update, for every input and prior
player state, the velocity is exactly the zero vector and `isGrounded` is
exactly false. -/
theorem noclip_zero_velocity_not_grounded (p : PlayerState)
    (dx dy s : ℚ) (moveDelta : Vec3) :
    (UpdateNoclipMode p dx dy s moveDelta).velocity = ⟨0, 0, 0⟩ ∧
    (UpdateNoclipMode p dx dy s moveDelta).isGrounded = false :=
  ⟨rfl, rfl⟩

/-- C3: in Walking mode, for every player state with `isGrounded = true`, an
edge-triggered jump key press during that frame's update sets `velocity.y`
to exactly 8.0 on that same frame, and `isGrounded` is false at the end of
that same frame. -/
theorem jump_frame_velocity_and_grounded (p : PlayerState)
    (dx dy s : ℚ) (moveDir : Vec3) (speed : ℚ) (space : Bool) (dt : ℚ)
    (colliders : List CollisionBox)
    (hg : p.isGrounded = true) (hs : space = true) :
    (UpdateWalkingMode p dx dy s moveDir speed space dt colliders).velocity.y = 8 ∧
    (UpdateWalkingMode p dx dy s moveDir speed space dt colliders).isGrounded = false := by
  have hv : (walkVelocity p moveDir speed space dt).y = JUMP_FORCE := by
    unfold walkVelocity
    simp [hg, hs]
  have hd : (decide ((walkVelocity p moveDir speed space dt).y ≤ 1/100)) = false := by
    rw [hv]
    norm_num [JUMP_FORCE]
  unfold UpdateWalkingMode
  dsimp only
  rw [hd, Bool.and_false]
  simp only [Bool.false_eq_true, if_false]
  exact ⟨hv.trans (by norm_num [JUMP_FORCE]), trivial⟩

/-- C3 witness at a concrete grounded state with the jump key pressed. -/
theorem jump_frame_velocity_and_grounded_witness :
    ({ position := ⟨0, 9/5, 10⟩, velocity := ⟨0, 0, 0⟩, yaw := -90, pitch := 0
       height := 9/5, radius := 3/10, isGrounded := true } : PlayerState).isGrounded
        = true ∧
    (true : Bool) = true ∧
    ((UpdateWalkingMode
        { position := ⟨0, 9/5, 10⟩, velocity := ⟨0, 0, 0⟩, yaw := -90, pitch := 0
          height := 9/5, radius := 3/10, isGrounded := true }
        0 0 (1/10) ⟨0, 0, 0⟩ 7 true (1/60) [centerCube]).velocity.y = 8 ∧
      (UpdateWalkingMode
        { position := ⟨0, 9/5, 10⟩, velocity := ⟨0, 0, 0⟩, yaw := -90, pitch := 0
          height := 9/5, radius := 3/10, isGrounded := true }
        0 0 (1/10) ⟨0, 0, 0⟩ 7 true (1/60) [centerCube]).isGrounded = false) :=
  ⟨rfl, rfl,
    jump_frame_velocity_and_grounded
      { position := ⟨0, 9/5, 10⟩, velocity := ⟨0, 0, 0⟩, yaw := -90, pitch := 0
        height := 9/5, radius := 3/10, isGrounded := true }
      0 0 (1/10) ⟨0, 0, 0⟩ 7 true (1/60) [centerCube] rfl rfl⟩

/-- Horizontal-collision condition as the spec states it in section 4.2:
the player's projected AABB overlaps the obstacle horizontally, the
player's feet (`position.y - height`) are below the obstacle's top surface
minus the 0.1 tolerance, and the player's head (`position.y`) is not below
the obstacle's bottom. -/
def HorizontalCollisionSpec (pos : Vec3) (r h : ℚ) (box : CollisionBox) : Prop :=
  ((GetBoxBounds box).min.x < pos.x + r ∧ pos.x - r < (GetBoxBounds box).max.x ∧
   (GetBoxBounds box).min.z < pos.z + r ∧ pos.z - r < (GetBoxBounds box).max.z) ∧
  pos.y - h < (GetBoxBounds box).max.y - 1/10 ∧
  ¬ (pos.y < (GetBoxBounds box).min.y)

/-- C6: for every candidate position and every obstacle, the horizontal
collision test holds exactly when the projected AABB overlaps the obstacle
horizontally, the feet are below the obstacle's top minus the 0.1
tolerance, and the head is not below the obstacle's bottom; and when the
feet are at or above (top - 0.1), no horizontal push-out is applied. -/
theorem horizontal_collision_test_characterization (pos : Vec3) (r h : ℚ)
    (box : CollisionBox) :
    (ShouldApplyHorizontalCollision pos r h box = true ↔
      HorizontalCollisionSpec pos r h box) ∧
    (pos.y - h ≥ (GetBoxBounds box).max.y - 1/10 →
      ShouldApplyHorizontalCollision pos r h box = false ∧
      resolveHorizontalCollisions pos r h [box] = pos) := by
  constructor
  · unfold ShouldApplyHorizontalCollision HorizontalCollisionSpec
    dsimp only
    split_ifs with h1 h2 h3
    · simp only [Bool.not_eq_true', Bool.and_eq_false_iff,
        decide_eq_false_iff_not, not_lt, gt_iff_lt] at h1
      constructor
      · intro hc
        exact absurd hc (by simp)
      · rintro ⟨⟨ha, hb, hc', hd⟩, -, -⟩
        rcases h1 with ((hle | hle) | hle) | hle <;> linarith
    · constructor
      · intro hc
        exact absurd hc (by simp)
      · rintro ⟨-, hfeet, -⟩
        linarith
    · constructor
      · intro hc
        exact absurd hc (by simp)
      · rintro ⟨-, -, hhead⟩
        exact hhead h3
    · simp only [Bool.not_eq_true', Bool.not_eq_false, Bool.and_eq_true,
        decide_eq_true_eq, gt_iff_lt] at h1
      simp only [ge_iff_le, not_le] at h2
      constructor
      · intro _
        exact ⟨⟨h1.1.1.1, h1.1.1.2, h1.1.2, h1.2⟩, by linarith, h3⟩
      · intro _
        rfl
  · intro hfeet
    have hfalse : ShouldApplyHorizontalCollision pos r h box = false := by
      unfold ShouldApplyHorizontalCollision
      dsimp only
      split_ifs with h1 <;> rfl
    refine ⟨hfalse, ?_⟩
    simp [resolveHorizontalCollisions, hfalse]

/-- C6 witness: concrete colliding configuration and a concrete
standing-on-top configuration with no push-out. -/
theorem horizontal_collision_test_characterization_witness :
    HorizontalCollisionSpec ⟨6/5, 1, 0⟩ (3/10) (9/5) centerCube ∧
    ShouldApplyHorizontalCollision ⟨6/5, 1, 0⟩ (3/10) (9/5) centerCube = true ∧
    ((4 : ℚ) - 9/5 ≥ (GetBoxBounds centerCube).max.y - 1/10 ∧
      ShouldApplyHorizontalCollision ⟨0, 4, 0⟩ (3/10) (9/5) centerCube = false ∧
      resolveHorizontalCollisions ⟨0, 4, 0⟩ (3/10) (9/5) [centerCube] =
        ⟨0, 4, 0⟩) := by
  have hspec : HorizontalCollisionSpec ⟨6/5, 1, 0⟩ (3/10) (9/5) centerCube := by
    norm_num [HorizontalCollisionSpec, GetBoxBounds, centerCube]
  have hge : ((4 : ℚ)) - 9/5 ≥ (GetBoxBounds centerCube).max.y - 1/10 := by
    norm_num [GetBoxBounds, centerCube]
  exact ⟨hspec,
    (horizontal_collision_test_characterization ⟨6/5, 1, 0⟩ (3/10) (9/5)
        centerCube).1.mpr hspec,
    hge,
    (horizontal_collision_test_characterization ⟨0, 4, 0⟩ (3/10) (9/5)
        centerCube).2 hge⟩

/-- The signed X-axis push (`minOverlapX`, main.cpp lines 228-234): overlap
against the near side negated, or against the far side, whichever the
`overlapX1 < overlapX2` comparison selects. -/
def minOverlapX (pos : Vec3) (r : ℚ) (box : CollisionBox) : ℚ :=
  let bounds := GetBoxBounds box
  let overlapX1 := (pos.x + r) - bounds.min.x
  let overlapX2 := bounds.max.x - (pos.x - r)
  if overlapX1 < overlapX2 then -overlapX1 else overlapX2

/-- The signed Z-axis push (`minOverlapZ`, main.cpp lines 230-235). -/
def minOverlapZ (pos : Vec3) (r : ℚ) (box : CollisionBox) : ℚ :=
  let bounds := GetBoxBounds box
  let overlapZ1 := (pos.z + r) - bounds.min.z
  let overlapZ2 := bounds.max.z - (pos.z - r)
  if overlapZ1 < overlapZ2 then -overlapZ1 else overlapZ2

/-- C8: the push-out computes the signed overlap on X and Z independently,
shifts the candidate position along only the axis whose required push has
strictly smaller absolute value, chooses the Z-axis push when the absolute
overlaps are exactly equal (`<` is false on equality), and leaves the other
coordinate and the y coordinate unchanged. -/
theorem resolve_collision_axis_choice (pos : Vec3) (r h : ℚ)
    (box : CollisionBox) :
    (|minOverlapX pos r box| < |minOverlapZ pos r box| →
      ResolveCollision pos r h box =
        { pos with x := pos.x + minOverlapX pos r box }) ∧
    (¬ |minOverlapX pos r box| < |minOverlapZ pos r box| →
      ResolveCollision pos r h box =
        { pos with z := pos.z + minOverlapZ pos r box }) ∧
    (|minOverlapX pos r box| = |minOverlapZ pos r box| →
      ResolveCollision pos r h box =
        { pos with z := pos.z + minOverlapZ pos r box }) := by
  have hre : ResolveCollision pos r h box =
      if |minOverlapX pos r box| < |minOverlapZ pos r box| then
        { pos with x := pos.x + minOverlapX pos r box }
      else { pos with z := pos.z + minOverlapZ pos r box } := rfl
  refine ⟨fun hlt => ?_, fun hge => ?_, fun heq => ?_⟩
  · rw [hre, if_pos hlt]
  · rw [hre, if_neg hge]
  · rw [hre, if_neg (by rw [heq]; exact lt_irrefl _)]

/-- C8 witness: at `(0, 1, 0)` against the center cube the two absolute
pushes tie, and the Z-axis push is the one applied. -/
theorem resolve_collision_axis_choice_witness :
    |minOverlapX ⟨0, 1, 0⟩ (3/10) centerCube| =
      |minOverlapZ ⟨0, 1, 0⟩ (3/10) centerCube| ∧
    ResolveCollision ⟨0, 1, 0⟩ (3/10) (9/5) centerCube =
      { (⟨0, 1, 0⟩ : Vec3) with
        z := (⟨0, 1, 0⟩ : Vec3).z + minOverlapZ ⟨0, 1, 0⟩ (3/10) centerCube } := by
  have heq : |minOverlapX ⟨0, 1, 0⟩ (3/10) centerCube| =
      |minOverlapZ ⟨0, 1, 0⟩ (3/10) centerCube| := by
    norm_num [minOverlapX, minOverlapZ, GetBoxBounds, centerCube]
  exact ⟨heq,
    (resolve_collision_axis_choice ⟨0, 1, 0⟩ (3/10) (9/5) centerCube).2.2 heq⟩

/-- C10: the horizontal overlap test of the collision gate uses strict
inequalities on every bound, so a player whose AABB exactly touches an
obstacle face is not considered overlapping and receives no push-out. -/
theorem exact_touch_no_collision (pos : Vec3) (r h : ℚ) (box : CollisionBox)
    (htouch :
      pos.x + r = (GetBoxBounds box).min.x ∨
      pos.x - r = (GetBoxBounds box).max.x ∨
      pos.z + r = (GetBoxBounds box).min.z ∨
      pos.z - r = (GetBoxBounds box).max.z) :
    ShouldApplyHorizontalCollision pos r h box = false ∧
    resolveHorizontalCollisions pos r h [box] = pos := by
  have hf : ShouldApplyHorizontalCollision pos r h box = false := by
    unfold ShouldApplyHorizontalCollision
    rcases htouch with he | he | he | he <;> simp [he]
  exact ⟨hf, by simp [resolveHorizontalCollisions, hf]⟩

/-- C10 witness: a player at horizontal distance from the box face exactly
equal to the radius (AABB touching the `x = 1` face of the center cube). -/
theorem exact_touch_no_collision_witness :
    ((13/10 : ℚ) - 3/10 = (GetBoxBounds centerCube).max.x) ∧
    ShouldApplyHorizontalCollision ⟨13/10, 1, 0⟩ (3/10) (9/5) centerCube = false ∧
    resolveHorizontalCollisions ⟨13/10, 1, 0⟩ (3/10) (9/5) [centerCube] =
      ⟨13/10, 1, 0⟩ := by
  have he : ((13/10 : ℚ)) - 3/10 = (GetBoxBounds centerCube).max.x := by
    norm_num [GetBoxBounds, centerCube]
  exact ⟨he,
    (exact_touch_no_collision ⟨13/10, 1, 0⟩ (3/10) (9/5) centerCube
      (Or.inr (Or.inl he))).1,
    (exact_touch_no_collision ⟨13/10, 1, 0⟩ (3/10) (9/5) centerCube
      (Or.inr (Or.inl he))).2⟩

/-- C7 counterexample: a player with feet exactly at `y_feet = 0.9`
(position `(0.9, 2.7, 0)`, height 1.8, radius 0.3) satisfies the claim's
premise `y_feet ≥ 1 - 0.1`, yet the horizontal collision gate fires against
the center cube and the push-out moves the position: the cube's top is at
`y = 2`, not at its center height 1, so the standing exception needs
`y_feet ≥ 2 - 0.1`. -/
theorem feet_at_point_nine_pushout_cex :
    ((27/10 : ℚ) - 9/5 ≥ 1 - 1/10) ∧
    ShouldApplyHorizontalCollision ⟨9/10, 27/10, 0⟩ (3/10) (9/5) centerCube = true ∧
    resolveHorizontalCollisions ⟨9/10, 27/10, 0⟩ (3/10) (9/5) [centerCube] ≠
      (⟨9/10, 27/10, 0⟩ : Vec3) := by
  have hs : ShouldApplyHorizontalCollision ⟨9/10, 27/10, 0⟩ (3/10) (9/5)
      centerCube = true := by
    norm_num [ShouldApplyHorizontalCollision, GetBoxBounds, centerCube]
  have hres : resolveHorizontalCollisions ⟨9/10, 27/10, 0⟩ (3/10) (9/5)
      [centerCube] = ⟨13/10, 27/10, 0⟩ := by
    norm_num [resolveHorizontalCollisions, ResolveCollision,
      ShouldApplyHorizontalCollision, GetBoxBounds, centerCube, abs_of_nonneg]
  refine ⟨by norm_num, hs, ?_⟩
  rw [hres]
  intro hcontra
  have hx := congrArg Vec3.x hcontra
  norm_num at hx

/-- C7 (amended): for the obstacle at center (0,1,0) with size (2,2,2),
every player whose feet sit at or above the box's top minus the tolerance
(`y_feet ≥ 2 - 0.1 = 1.9`, the top being 2, not the center height 1)
experiences no horizontal push-out from that obstacle. -/
theorem no_pushout_above_box_top (pos : Vec3) (r h : ℚ)
    (hfeet : pos.y - h ≥ 19/10) :
    ShouldApplyHorizontalCollision pos r h centerCube = false ∧
    resolveHorizontalCollisions pos r h [centerCube] = pos := by
  have hfeet2 : pos.y - h ≥ (GetBoxBounds centerCube).max.y - 1/10 := by
    have htop : (GetBoxBounds centerCube).max.y = 2 := by
      norm_num [GetBoxBounds, centerCube]
    rw [htop]
    linarith
  have hf : ShouldApplyHorizontalCollision pos r h centerCube = false := by
    unfold ShouldApplyHorizontalCollision
    dsimp only
    split_ifs with h1 <;> rfl
  exact ⟨hf, by simp [resolveHorizontalCollisions, hf]⟩

/-- C7 witness for the amended claim: feet at 2.2, above the cube's top. -/
theorem no_pushout_above_box_top_witness :
    ((4 : ℚ) - 9/5 ≥ 19/10) ∧
    ShouldApplyHorizontalCollision ⟨1/2, 4, 0⟩ (3/10) (9/5) centerCube = false ∧
    resolveHorizontalCollisions ⟨1/2, 4, 0⟩ (3/10) (9/5) [centerCube] =
      ⟨1/2, 4, 0⟩ := by
  have hge : ((4 : ℚ)) - 9/5 ≥ 19/10 := by norm_num
  exact ⟨hge,
    (no_pushout_above_box_top ⟨1/2, 4, 0⟩ (3/10) (9/5) hge).1,
    (no_pushout_above_box_top ⟨1/2, 4, 0⟩ (3/10) (9/5) hge).2⟩

/-- A box that counts as standable ground under a candidate position, as
the spec's grounding test states it (section 4.2): the horizontal footprint
with radius margin contains the candidate position, the feet lie within the
band from (top - 0.5) to (top + 0.05), and vertical velocity is at most
0.01 (not currently moving upward). -/
def StandableOn (pos : Vec3) (radius height vy : ℚ) (box : CollisionBox) : Prop :=
  (pos.x + radius > (GetBoxBounds box).min.x ∧
   pos.x - radius < (GetBoxBounds box).max.x ∧
   pos.z + radius > (GetBoxBounds box).min.z ∧
   pos.z - radius < (GetBoxBounds box).max.z) ∧
  (pos.y - height ≤ (GetBoxBounds box).max.y + 1/20 ∧
   pos.y - height ≥ (GetBoxBounds box).max.y - 1/2) ∧
  vy ≤ 1/100

theorem groundAccum_fst (pos : Vec3) (r h vy : ℚ) (acc : Bool × ℚ)
    (box : CollisionBox) :
    (groundAccum pos r h vy acc box).1 = true ↔
      acc.1 = true ∨ StandableOn pos r h vy box := by
  unfold groundAccum StandableOn
  dsimp only
  split_ifs with c1 c2 c3 <;> simp_all

theorem groundAccum_snd_le (pos : Vec3) (r h vy : ℚ) (acc : Bool × ℚ)
    (box : CollisionBox) :
    acc.2 ≤ (groundAccum pos r h vy acc box).2 := by
  unfold groundAccum
  dsimp only
  split_ifs with c1 c2 c3 c4 <;> simp_all <;> linarith

theorem groundAccum_snd_cases (pos : Vec3) (r h vy : ℚ) (acc : Bool × ℚ)
    (box : CollisionBox) :
    (groundAccum pos r h vy acc box).2 = acc.2 ∨
      (StandableOn pos r h vy box ∧
        (GetBoxBounds box).max.y = (groundAccum pos r h vy acc box).2) := by
  unfold groundAccum StandableOn
  dsimp only
  split_ifs with c1 c2 c3 c4 <;> simp_all

theorem groundAccum_snd_top (pos : Vec3) (r h vy : ℚ) (acc : Bool × ℚ)
    (box : CollisionBox) (hst : StandableOn pos r h vy box) :
    (GetBoxBounds box).max.y ≤ (groundAccum pos r h vy acc box).2 := by
  unfold StandableOn at hst
  unfold groundAccum
  dsimp only
  split_ifs with c1 c2 c3 c4 <;> simp_all

theorem foldl_groundAccum_spec (pos : Vec3) (r h vy : ℚ) :
    ∀ (cs : List CollisionBox) (acc : Bool × ℚ),
      ((cs.foldl (groundAccum pos r h vy) acc).1 = true ↔
        acc.1 = true ∨ ∃ box ∈ cs, StandableOn pos r h vy box) ∧
      acc.2 ≤ (cs.foldl (groundAccum pos r h vy) acc).2 ∧
      (∀ box ∈ cs, StandableOn pos r h vy box →
        (GetBoxBounds box).max.y ≤ (cs.foldl (groundAccum pos r h vy) acc).2) ∧
      ((cs.foldl (groundAccum pos r h vy) acc).2 = acc.2 ∨
        ∃ box ∈ cs, StandableOn pos r h vy box ∧
          (GetBoxBounds box).max.y = (cs.foldl (groundAccum pos r h vy) acc).2) := by
  intro cs
  induction cs with
  | nil =>
    intro acc
    simp
  | cons b bs ih =>
    intro acc
    obtain ⟨ih1, ih2, ih3, ih4⟩ := ih (groundAccum pos r h vy acc b)
    rw [List.foldl_cons]
    refine ⟨?_, ?_, ?_, ?_⟩
    · rw [ih1, groundAccum_fst]
      constructor
      · rintro ((ha | hb) | ⟨box, hm, hst⟩)
        · exact Or.inl ha
        · exact Or.inr ⟨b, List.mem_cons_self b bs, hb⟩
        · exact Or.inr ⟨box, List.mem_cons_of_mem b hm, hst⟩
      · rintro (ha | ⟨box, hm, hst⟩)
        · exact Or.inl (Or.inl ha)
        · rcases List.mem_cons.mp hm with rfl | hm2
          · exact Or.inl (Or.inr hst)
          · exact Or.inr ⟨box, hm2, hst⟩
    · exact le_trans (groundAccum_snd_le pos r h vy acc b) ih2
    · intro box hm hst
      rcases List.mem_cons.mp hm with rfl | hm2
      · exact le_trans (groundAccum_snd_top pos r h vy acc box hst) ih2
      · exact ih3 box hm2 hst
    · rcases ih4 with heq | ⟨box, hm, hst, htop⟩
      · rcases groundAccum_snd_cases pos r h vy acc b with heq2 | ⟨hst, htop⟩
        · exact Or.inl (heq.trans heq2)
        · exact Or.inr ⟨b, List.mem_cons_self b bs, hst, htop.trans heq.symm⟩
      · exact Or.inr ⟨box, List.mem_cons_of_mem b hm, hst, htop⟩

/-- C9: in Walking mode, ground detection picks the highest qualifying
surface: the scan reports ground exactly when the plane check passes or
some obstacle is standable; the reported ground height is at least the
plane's, dominates every standable obstacle top, and is attained by the
plane or a standable obstacle; with the plane at 0 and the center cube's
top at 2 both under the footprint the resolved height is 2; and in the
frame update, when ground is found and vertical velocity is at most ~0 the
position snaps to surfaceY + height with velocity.y zeroed and grounded
set, and otherwise grounded is false. -/
theorem ground_detection_highest_surface (pos : Vec3) (r h vy : ℚ)
    (cs : List CollisionBox) (p : PlayerState) (dx dy s : ℚ) (moveDir : Vec3)
    (speed : ℚ) (space : Bool) (dt : ℚ) :
    ((findGround pos r h vy cs).1 = true ↔
      (pos.y - h ≤ GROUND_LEVEL + 1/20 ∨
        ∃ box ∈ cs, StandableOn pos r h vy box)) ∧
    GROUND_LEVEL ≤ (findGround pos r h vy cs).2 ∧
    (∀ box ∈ cs, StandableOn pos r h vy box →
      (GetBoxBounds box).max.y ≤ (findGround pos r h vy cs).2) ∧
    ((findGround pos r h vy cs).2 = GROUND_LEVEL ∨
      ∃ box ∈ cs, StandableOn pos r h vy box ∧
        (GetBoxBounds box).max.y = (findGround pos r h vy cs).2) ∧
    (StandableOn pos r h vy centerCube →
      (findGround pos r h vy [centerCube]).2 = 2) ∧
    (((findGround (walkCandidate p moveDir speed space dt cs) p.radius
          p.height (walkVelocity p moveDir speed space dt).y cs).1 = true ∧
        (walkVelocity p moveDir speed space dt).y ≤ 1/100) →
      ((UpdateWalkingMode p dx dy s moveDir speed space dt cs).position.y =
          (findGround (walkCandidate p moveDir speed space dt cs) p.radius
            p.height (walkVelocity p moveDir speed space dt).y cs).2 +
            p.height ∧
        (UpdateWalkingMode p dx dy s moveDir speed space dt cs).velocity.y = 0 ∧
        (UpdateWalkingMode p dx dy s moveDir speed space dt cs).isGrounded =
          true)) ∧
    (¬ ((findGround (walkCandidate p moveDir speed space dt cs) p.radius
          p.height (walkVelocity p moveDir speed space dt).y cs).1 = true ∧
        (walkVelocity p moveDir speed space dt).y ≤ 1/100) →
      (UpdateWalkingMode p dx dy s moveDir speed space dt cs).isGrounded =
        false) := by
  have hacc : findGround pos r h vy cs = cs.foldl (groundAccum pos r h vy)
      (decide (pos.y - h ≤ GROUND_LEVEL + 1/20), GROUND_LEVEL) := rfl
  obtain ⟨f1, f2, f3, f4⟩ := foldl_groundAccum_spec pos r h vy cs
    (decide (pos.y - h ≤ GROUND_LEVEL + 1/20), GROUND_LEVEL)
  refine ⟨?_, ?_, ?_, ?_, ?_, ?_, ?_⟩
  · rw [hacc, f1]
    simp only [decide_eq_true_eq]
  · rw [hacc]
    exact f2
  · rw [hacc]
    exact f3
  · rw [hacc]
    exact f4
  · intro hst
    obtain ⟨g1, g2, g3, g4⟩ := foldl_groundAccum_spec pos r h vy [centerCube]
      (decide (pos.y - h ≤ GROUND_LEVEL + 1/20), GROUND_LEVEL)
    have hacc2 : findGround pos r h vy [centerCube] =
        List.foldl (groundAccum pos r h vy)
          (decide (pos.y - h ≤ GROUND_LEVEL + 1/20), GROUND_LEVEL)
          [centerCube] := rfl
    have htop2 : (GetBoxBounds centerCube).max.y = 2 := by
      norm_num [GetBoxBounds, centerCube]
    have h2le : (2 : ℚ) ≤ (findGround pos r h vy [centerCube]).2 := by
      rw [hacc2]
      rw [← htop2]
      exact g3 centerCube (List.mem_cons_self centerCube []) hst
    rcases g4 with heq | ⟨box, hm, hst2, htopg⟩
    · rw [hacc2] at h2le ⊢
      rw [heq] at h2le
      norm_num [GROUND_LEVEL] at h2le
    · rcases List.mem_cons.mp hm with rfl | hm2
      · rw [hacc2, ← htopg, htop2]
      · simp at hm2
  · rintro ⟨hf, hv⟩
    have hland : ((findGround (walkCandidate p moveDir speed space dt cs)
        p.radius p.height (walkVelocity p moveDir speed space dt).y cs).1 &&
        decide ((walkVelocity p moveDir speed space dt).y ≤ 1/100)) = true := by
      rw [hf, decide_eq_true hv]
      rfl
    unfold UpdateWalkingMode
    dsimp only
    rw [hland]
    simp
  · intro hn
    have hland : ((findGround (walkCandidate p moveDir speed space dt cs)
        p.radius p.height (walkVelocity p moveDir speed space dt).y cs).1 &&
        decide ((walkVelocity p moveDir speed space dt).y ≤ 1/100)) = false := by
      by_cases hb : (findGround (walkCandidate p moveDir speed space dt cs)
          p.radius p.height (walkVelocity p moveDir speed space dt).y cs).1 =
          true
      · have hv2 : ¬ ((walkVelocity p moveDir speed space dt).y ≤ 1/100) :=
          fun hv => hn ⟨hb, hv⟩
        rw [hb, decide_eq_false hv2, Bool.and_false]
      · rw [Bool.not_eq_true] at hb
        rw [hb, Bool.false_and]
    unfold UpdateWalkingMode
    dsimp only
    rw [hland]

/-- Concrete player used by the C9 witness: standing on the center cube
(feet at y = 2), at rest, grounded. -/
def groundWitnessPlayer : PlayerState :=
  { position := ⟨0, 19/5, 0⟩, velocity := ⟨0, 0, 0⟩, yaw := -90, pitch := 0
    height := 9/5, radius := 3/10, isGrounded := true }

/-- C9 witness: on the center cube the resolved ground height is 2 (not the
plane's 0), and the frame update snaps/keeps the standing player grounded. -/
theorem ground_detection_highest_surface_witness :
    StandableOn ⟨0, 19/5, 0⟩ (3/10) (9/5) 0 centerCube ∧
    (findGround ⟨0, 19/5, 0⟩ (3/10) (9/5) 0 [centerCube]).2 = 2 ∧
    ((findGround
        (walkCandidate groundWitnessPlayer ⟨0, 0, 0⟩ 7 false (1/60) [centerCube])
        groundWitnessPlayer.radius groundWitnessPlayer.height
        (walkVelocity groundWitnessPlayer ⟨0, 0, 0⟩ 7 false (1/60)).y
        [centerCube]).1 = true ∧
      (walkVelocity groundWitnessPlayer ⟨0, 0, 0⟩ 7 false (1/60)).y ≤ 1/100) ∧
    (UpdateWalkingMode groundWitnessPlayer 0 0 (1/10) ⟨0, 0, 0⟩ 7 false (1/60)
      [centerCube]).isGrounded = true := by
  have hst : StandableOn ⟨0, 19/5, 0⟩ (3/10) (9/5) 0 centerCube := by
    norm_num [StandableOn, GetBoxBounds, centerCube]
  have hvel : (walkVelocity groundWitnessPlayer ⟨0, 0, 0⟩ 7 false (1/60)).y = 0 := by
    norm_num [walkVelocity, groundWitnessPlayer]
  have hcand : walkCandidate groundWitnessPlayer ⟨0, 0, 0⟩ 7 false (1/60)
      [centerCube] = ⟨0, 19/5, 0⟩ := by
    norm_num [walkCandidate, walkVelocity, groundWitnessPlayer,
      resolveHorizontalCollisions, ShouldApplyHorizontalCollision,
      GetBoxBounds, centerCube]
  have hfind : (findGround
      (walkCandidate groundWitnessPlayer ⟨0, 0, 0⟩ 7 false (1/60) [centerCube])
      groundWitnessPlayer.radius groundWitnessPlayer.height
      (walkVelocity groundWitnessPlayer ⟨0, 0, 0⟩ 7 false (1/60)).y
      [centerCube]).1 = true := by
    rw [hcand, hvel]
    norm_num [findGround, groundAccum, GetBoxBounds, centerCube, GROUND_LEVEL,
      groundWitnessPlayer]
  have hprem : (findGround
      (walkCandidate groundWitnessPlayer ⟨0, 0, 0⟩ 7 false (1/60) [centerCube])
      groundWitnessPlayer.radius groundWitnessPlayer.height
      (walkVelocity groundWitnessPlayer ⟨0, 0, 0⟩ 7 false (1/60)).y
      [centerCube]).1 = true ∧
      (walkVelocity groundWitnessPlayer ⟨0, 0, 0⟩ 7 false (1/60)).y ≤ 1/100 :=
    ⟨hfind, by rw [hvel]; norm_num⟩
  exact ⟨hst,
    (ground_detection_highest_surface ⟨0, 19/5, 0⟩ (3/10) (9/5) 0 [centerCube]
        groundWitnessPlayer 0 0 (1/10) ⟨0, 0, 0⟩ 7 false (1/60)).2.2.2.2.1 hst,
    hprem,
    ((ground_detection_highest_surface ⟨0, 19/5, 0⟩ (3/10) (9/5) 0 [centerCube]
        groundWitnessPlayer 0 0 (1/10) ⟨0, 0, 0⟩ 7 false
        (1/60)).2.2.2.2.2.1 hprem).2.2⟩

/-- Iterated Walking-mode frames with zero pointer delta, zero move intent,
no jump and no obstacles: the free-fall scenario of the spec's testable
properties. -/
def freefallIterate (p0 : PlayerState) (speed dt : ℚ) : ℕ → PlayerState
  | 0 => p0
  | n + 1 => UpdateWalkingMode (freefallIterate p0 speed dt n) 0 0 0 ⟨0, 0, 0⟩
      speed false dt []

theorem walkVelocity_free (p : PlayerState) (speed dt : ℚ)
    (hair : p.isGrounded = false) :
    walkVelocity p ⟨0, 0, 0⟩ speed false dt =
      ⟨0, p.velocity.y - GRAVITY * dt, 0⟩ := by
  unfold walkVelocity
  simp [hair]

theorem walkVelocity_grounded_rest (p : PlayerState) (speed dt : ℚ)
    (hg : p.isGrounded = true) :
    walkVelocity p ⟨0, 0, 0⟩ speed false dt = ⟨0, p.velocity.y, 0⟩ := by
  unfold walkVelocity
  simp [hg]

theorem walkCandidate_free (p : PlayerState) (speed dt vy : ℚ)
    (hvel : walkVelocity p ⟨0, 0, 0⟩ speed false dt = ⟨0, vy, 0⟩) :
    walkCandidate p ⟨0, 0, 0⟩ speed false dt [] =
      ⟨p.position.x, p.position.y + vy * dt, p.position.z⟩ := by
  unfold walkCandidate
  rw [hvel]
  simp [resolveHorizontalCollisions]

theorem walk_step_airborne (p : PlayerState) (speed dt : ℚ)
    (hair : p.isGrounded = false)
    (hvy : p.velocity.y - GRAVITY * dt ≤ 1/100) :
    ((p.position.y + (p.velocity.y - GRAVITY * dt) * dt) - p.height ≤
        GROUND_LEVEL + 1/20 →
      ((UpdateWalkingMode p 0 0 0 ⟨0, 0, 0⟩ speed false dt []).isGrounded = true ∧
       (UpdateWalkingMode p 0 0 0 ⟨0, 0, 0⟩ speed false dt []).velocity.y = 0 ∧
       (UpdateWalkingMode p 0 0 0 ⟨0, 0, 0⟩ speed false dt []).position.y =
         GROUND_LEVEL + p.height)) ∧
    (¬ ((p.position.y + (p.velocity.y - GRAVITY * dt) * dt) - p.height ≤
        GROUND_LEVEL + 1/20) →
      ((UpdateWalkingMode p 0 0 0 ⟨0, 0, 0⟩ speed false dt []).isGrounded = false ∧
       (UpdateWalkingMode p 0 0 0 ⟨0, 0, 0⟩ speed false dt []).velocity.y =
         p.velocity.y - GRAVITY * dt ∧
       (UpdateWalkingMode p 0 0 0 ⟨0, 0, 0⟩ speed false dt []).position.y =
         p.position.y + (p.velocity.y - GRAVITY * dt) * dt)) := by
  have hvel := walkVelocity_free p speed dt hair
  have hcand := walkCandidate_free p speed dt (p.velocity.y - GRAVITY * dt) hvel
  constructor
  · intro hle
    unfold UpdateWalkingMode
    dsimp only
    rw [hvel, hcand]
    have hg1 : (findGround
        ⟨p.position.x, p.position.y + (p.velocity.y - GRAVITY * dt) * dt,
          p.position.z⟩ p.radius p.height
        (⟨0, p.velocity.y - GRAVITY * dt, 0⟩ : Vec3).y []) =
        (true, GROUND_LEVEL) := by
      unfold findGround
      simp only [List.foldl_nil]
      rw [decide_eq_true]
      exact hle
    rw [hg1]
    dsimp only
    rw [decide_eq_true hvy]
    simp
  · intro hgt
    unfold UpdateWalkingMode
    dsimp only
    rw [hvel, hcand]
    have hg1 : (findGround
        ⟨p.position.x, p.position.y + (p.velocity.y - GRAVITY * dt) * dt,
          p.position.z⟩ p.radius p.height
        (⟨0, p.velocity.y - GRAVITY * dt, 0⟩ : Vec3).y []) =
        (false, GROUND_LEVEL) := by
      unfold findGround
      simp only [List.foldl_nil]
      rw [decide_eq_false]
      exact hgt
    rw [hg1]
    simp

theorem walk_step_grounded_rest (p : PlayerState) (speed dt : ℚ)
    (hg : p.isGrounded = true) (hvy : p.velocity.y = 0)
    (hpos : p.position.y = GROUND_LEVEL + p.height) :
    (UpdateWalkingMode p 0 0 0 ⟨0, 0, 0⟩ speed false dt []).isGrounded = true ∧
    (UpdateWalkingMode p 0 0 0 ⟨0, 0, 0⟩ speed false dt []).velocity.y = 0 ∧
    (UpdateWalkingMode p 0 0 0 ⟨0, 0, 0⟩ speed false dt []).position.y =
      GROUND_LEVEL + p.height := by
  have hvel : walkVelocity p ⟨0, 0, 0⟩ speed false dt = ⟨0, 0, 0⟩ := by
    rw [walkVelocity_grounded_rest p speed dt hg, hvy]
  have hcand : walkCandidate p ⟨0, 0, 0⟩ speed false dt [] =
      ⟨p.position.x, p.position.y + 0 * dt, p.position.z⟩ :=
    walkCandidate_free p speed dt 0 hvel
  unfold UpdateWalkingMode
  dsimp only
  rw [hvel, hcand]
  have hg1 : (findGround
      ⟨p.position.x, p.position.y + 0 * dt, p.position.z⟩ p.radius p.height
      ((⟨0, 0, 0⟩ : Vec3)).y []) = (true, GROUND_LEVEL) := by
    unfold findGround
    simp only [List.foldl_nil]
    rw [decide_eq_true]
    dsimp only
    rw [hpos]
    norm_num
  rw [hg1]
  norm_num

/-- Initial state of the free-fall scenario: airborne at height `y0`, at
rest, with zero velocity. -/
def freefallStart (x0 y0 z0 yaw0 pitch0 h r : ℚ) : PlayerState :=
  { position := ⟨x0, y0, z0⟩, velocity := ⟨0, 0, 0⟩, yaw := yaw0
    pitch := pitch0, height := h, radius := r, isGrounded := false }

theorem freefallIterate_height (p0 : PlayerState) (speed dt : ℚ) :
    ∀ n, (freefallIterate p0 speed dt n).height = p0.height := by
  intro n
  induction n with
  | zero => rfl
  | succ n ih => exact ih

/-- C2: in Walking mode with no obstacles and zero horizontal input, an
airborne player starting at rest free-falls: on every airborne frame `n`
the vertical velocity is exactly `-gravity·dt·n` (it decreases by
`gravity·dt` each frame) and the position follows the integrated
trajectory, until the feet reach the ground plane, at which point
`isGrounded` becomes true, `velocity.y` becomes 0 and `position.y` equals
the player height; and with `dt > 0` such a landing frame exists. -/
theorem freefall_until_landing (x0 y0 z0 yaw0 pitch0 h r speed dt : ℚ)
    (hdt : 0 < dt) :
    (∀ n : ℕ,
      ((freefallIterate (freefallStart x0 y0 z0 yaw0 pitch0 h r) speed dt
          n).isGrounded = false ∧
        (freefallIterate (freefallStart x0 y0 z0 yaw0 pitch0 h r) speed dt
          n).velocity.y = -(GRAVITY * dt) * n ∧
        (freefallIterate (freefallStart x0 y0 z0 yaw0 pitch0 h r) speed dt
          n).position.y = y0 - GRAVITY * dt^2 * (n * (n + 1)) / 2) ∨
      ((freefallIterate (freefallStart x0 y0 z0 yaw0 pitch0 h r) speed dt
          n).isGrounded = true ∧
        (freefallIterate (freefallStart x0 y0 z0 yaw0 pitch0 h r) speed dt
          n).velocity.y = 0 ∧
        (freefallIterate (freefallStart x0 y0 z0 yaw0 pitch0 h r) speed dt
          n).position.y = h)) ∧
    (∃ n : ℕ,
      (freefallIterate (freefallStart x0 y0 z0 yaw0 pitch0 h r) speed dt
        n).isGrounded = true ∧
      (freefallIterate (freefallStart x0 y0 z0 yaw0 pitch0 h r) speed dt
        n).velocity.y = 0 ∧
      (freefallIterate (freefallStart x0 y0 z0 yaw0 pitch0 h r) speed dt
        n).position.y = h) := by
  have hGdt : 0 ≤ GRAVITY * dt := by
    have : (0 : ℚ) < 20 * dt := by linarith
    simpa [GRAVITY] using le_of_lt this
  have hheight := freefallIterate_height (freefallStart x0 y0 z0 yaw0 pitch0 h r)
    speed dt
  have hstep_eq : ∀ m : ℕ,
      freefallIterate (freefallStart x0 y0 z0 yaw0 pitch0 h r) speed dt
          (m + 1) =
        UpdateWalkingMode (freefallIterate (freefallStart x0 y0 z0 yaw0 pitch0
          h r) speed dt m) 0 0 0 ⟨0, 0, 0⟩ speed false dt [] :=
    fun m => rfl
  have hinv : ∀ n : ℕ,
      ((freefallIterate (freefallStart x0 y0 z0 yaw0 pitch0 h r) speed dt
          n).isGrounded = false ∧
        (freefallIterate (freefallStart x0 y0 z0 yaw0 pitch0 h r) speed dt
          n).velocity.y = -(GRAVITY * dt) * n ∧
        (freefallIterate (freefallStart x0 y0 z0 yaw0 pitch0 h r) speed dt
          n).position.y = y0 - GRAVITY * dt^2 * (n * (n + 1)) / 2) ∨
      ((freefallIterate (freefallStart x0 y0 z0 yaw0 pitch0 h r) speed dt
          n).isGrounded = true ∧
        (freefallIterate (freefallStart x0 y0 z0 yaw0 pitch0 h r) speed dt
          n).velocity.y = 0 ∧
        (freefallIterate (freefallStart x0 y0 z0 yaw0 pitch0 h r) speed dt
          n).position.y = h) := by
    intro n
    induction n with
    | zero =>
      left
      refine ⟨rfl, by simp [freefallIterate, freefallStart], ?_⟩
      simp [freefallIterate, freefallStart]
    | succ n ih =>
      rw [hstep_eq n]
      rcases ih with ⟨hg, hv, hy⟩ | ⟨hg, hv, hy⟩
      · have hn0 : (0 : ℚ) ≤ (n : ℚ) := Nat.cast_nonneg n
        have hvy : (freefallIterate (freefallStart x0 y0 z0 yaw0 pitch0 h r)
            speed dt n).velocity.y - GRAVITY * dt ≤ 1/100 := by
          rw [hv]
          have hmn : 0 ≤ GRAVITY * dt * n := mul_nonneg hGdt hn0
          linarith
        obtain ⟨hland, hstay⟩ := walk_step_airborne
          (freefallIterate (freefallStart x0 y0 z0 yaw0 pitch0 h r) speed dt n)
          speed dt hg hvy
        by_cases hle : (freefallIterate (freefallStart x0 y0 z0 yaw0 pitch0 h r)
              speed dt n).position.y +
            ((freefallIterate (freefallStart x0 y0 z0 yaw0 pitch0 h r) speed dt
              n).velocity.y - GRAVITY * dt) * dt -
            (freefallIterate (freefallStart x0 y0 z0 yaw0 pitch0 h r) speed dt
              n).height ≤ GROUND_LEVEL + 1/20
        · right
          obtain ⟨hg2, hv2, hy2⟩ := hland hle
          refine ⟨hg2, hv2, ?_⟩
          rw [hy2, hheight n]
          simp [freefallStart, GROUND_LEVEL]
        · left
          obtain ⟨hg2, hv2, hy2⟩ := hstay hle
          refine ⟨hg2, ?_, ?_⟩
          · rw [hv2, hv]
            push_cast
            ring
          · rw [hy2, hy, hv]
            push_cast
            ring
      · right
        have hpos : (freefallIterate (freefallStart x0 y0 z0 yaw0 pitch0 h r)
            speed dt n).position.y = GROUND_LEVEL +
            (freefallIterate (freefallStart x0 y0 z0 yaw0 pitch0 h r) speed dt
              n).height := by
          rw [hy, hheight n]
          simp [freefallStart, GROUND_LEVEL]
        obtain ⟨hg2, hv2, hy2⟩ := walk_step_grounded_rest
          (freefallIterate (freefallStart x0 y0 z0 yaw0 pitch0 h r) speed dt n)
          speed dt hg hv hpos
        refine ⟨hg2, hv2, ?_⟩
        rw [hy2, hheight n]
        simp [freefallStart, GROUND_LEVEL]
  refine ⟨hinv, ?_⟩
  have hGdt2 : 0 < GRAVITY * dt^2 := by
    have h20 : (0 : ℚ) < 20 := by norm_num
    have : (0 : ℚ) < dt^2 := by positivity
    simpa [GRAVITY] using mul_pos h20 this
  have hex : ∃ n : ℕ, (freefallIterate (freefallStart x0 y0 z0 yaw0 pitch0 h r)
      speed dt n).isGrounded = true := by
    by_contra hno
    push_neg at hno
    have hair : ∀ n : ℕ, (freefallIterate (freefallStart x0 y0 z0 yaw0 pitch0
        h r) speed dt n).isGrounded = false := by
      intro n
      exact Bool.eq_false_iff.mpr (hno n)
    have hform : ∀ n : ℕ,
        (freefallIterate (freefallStart x0 y0 z0 yaw0 pitch0 h r) speed dt
          n).velocity.y = -(GRAVITY * dt) * n ∧
        (freefallIterate (freefallStart x0 y0 z0 yaw0 pitch0 h r) speed dt
          n).position.y = y0 - GRAVITY * dt^2 * (n * (n + 1)) / 2 := by
      intro n
      rcases hinv n with ⟨-, hv, hy⟩ | ⟨hg, -, -⟩
      · exact ⟨hv, hy⟩
      · exact absurd hg (hno n)
    obtain ⟨n, hn⟩ := exists_nat_gt ((y0 - h) / (GRAVITY * dt^2))
    have hnlarge : y0 - GRAVITY * dt^2 * n < h := by
      have := (div_lt_iff hGdt2).mp hn
      linarith
    obtain ⟨hv, hy⟩ := hform n
    have hn0 : (0 : ℚ) ≤ (n : ℚ) := Nat.cast_nonneg n
    have hvy : (freefallIterate (freefallStart x0 y0 z0 yaw0 pitch0 h r)
        speed dt n).velocity.y - GRAVITY * dt ≤ 1/100 := by
      rw [hv]
      have hmn : 0 ≤ GRAVITY * dt * n := mul_nonneg hGdt hn0
      linarith
    obtain ⟨hland, -⟩ := walk_step_airborne
      (freefallIterate (freefallStart x0 y0 z0 yaw0 pitch0 h r) speed dt n)
      speed dt (hair n) hvy
    have hle : (freefallIterate (freefallStart x0 y0 z0 yaw0 pitch0 h r)
          speed dt n).position.y +
        ((freefallIterate (freefallStart x0 y0 z0 yaw0 pitch0 h r) speed dt
          n).velocity.y - GRAVITY * dt) * dt -
        (freefallIterate (freefallStart x0 y0 z0 yaw0 pitch0 h r) speed dt
          n).height ≤ GROUND_LEVEL + 1/20 := by
      rw [hv, hy, hheight n]
      have hsq : GRAVITY * dt^2 * n ≤
          GRAVITY * dt^2 * (n * (n + 1)) / 2 + GRAVITY * dt * dt +
            GRAVITY * dt * n * dt := by
        have hterm : 0 ≤ GRAVITY * dt^2 * (n * n) := by positivity
        nlinarith
      simp only [freefallStart, GROUND_LEVEL]
      nlinarith
    obtain ⟨hg2, -, -⟩ := hland hle
    apply hno (n + 1)
    rw [hstep_eq n]
    exact hg2
  obtain ⟨n, hg⟩ := hex
  rcases hinv n with ⟨hg2, -, -⟩ | hG
  · rw [hg] at hg2
    cases hg2
  · exact ⟨n, hG⟩

/-- C2 witness: concrete free fall from y = 4 with dt = 1/60. -/
theorem freefall_until_landing_witness :
    (0 : ℚ) < 1/60 ∧
    ((∀ n : ℕ,
      ((freefallIterate (freefallStart 0 4 10 (-90) 0 (9/5) (3/10)) 7 (1/60)
          n).isGrounded = false ∧
        (freefallIterate (freefallStart 0 4 10 (-90) 0 (9/5) (3/10)) 7 (1/60)
          n).velocity.y = -(GRAVITY * (1/60)) * n ∧
        (freefallIterate (freefallStart 0 4 10 (-90) 0 (9/5) (3/10)) 7 (1/60)
          n).position.y = 4 - GRAVITY * (1/60)^2 * (n * (n + 1)) / 2) ∨
      ((freefallIterate (freefallStart 0 4 10 (-90) 0 (9/5) (3/10)) 7 (1/60)
          n).isGrounded = true ∧
        (freefallIterate (freefallStart 0 4 10 (-90) 0 (9/5) (3/10)) 7 (1/60)
          n).velocity.y = 0 ∧
        (freefallIterate (freefallStart 0 4 10 (-90) 0 (9/5) (3/10)) 7 (1/60)
          n).position.y = 9/5)) ∧
    (∃ n : ℕ,
      (freefallIterate (freefallStart 0 4 10 (-90) 0 (9/5) (3/10)) 7 (1/60)
        n).isGrounded = true ∧
      (freefallIterate (freefallStart 0 4 10 (-90) 0 (9/5) (3/10)) 7 (1/60)
        n).velocity.y = 0 ∧
      (freefallIterate (freefallStart 0 4 10 (-90) 0 (9/5) (3/10)) 7 (1/60)
        n).position.y = 9/5)) :=
  ⟨by norm_num,
    freefall_until_landing 0 4 10 (-90) 0 (9/5) (3/10) 7 (1/60) (by norm_num)⟩

theorem resolveHorizontalCollisions_single (pos : Vec3) (r h : ℚ)
    (box : CollisionBox) :
    resolveHorizontalCollisions pos r h [box] =
      if ShouldApplyHorizontalCollision pos r h box then
        ResolveCollision pos r h box
      else pos := by
  simp [resolveHorizontalCollisions]

theorem shouldApply_approach (r h x : ℚ) (hr : 0 < r) (hh : 0 ≤ h)
    (hx0 : 0 < x) (hxlt : x < 1 + r) :
    ShouldApplyHorizontalCollision ⟨x, 1, 0⟩ r h centerCube = true := by
  unfold ShouldApplyHorizontalCollision
  simp only [GetBoxBounds, centerCube]
  dsimp only
  norm_num
  refine ⟨⟨⟨⟨?_, ?_⟩, ?_⟩, ?_⟩, ?_⟩ <;> linarith

theorem shouldApply_approach_far (r h x : ℚ) (hge : 1 + r ≤ x) :
    ShouldApplyHorizontalCollision ⟨x, 1, 0⟩ r h centerCube = false := by
  unfold ShouldApplyHorizontalCollision
  simp only [GetBoxBounds, centerCube]
  dsimp only
  norm_num
  intro h1 h2
  linarith

theorem resolve_approach (r h x : ℚ) (hr : 0 < r) (hx0 : 0 < x)
    (hxlt : x < 1 + r) :
    ResolveCollision ⟨x, 1, 0⟩ r h centerCube = ⟨1 + r, 1, 0⟩ := by
  have habs1 : |1 - (x - r)| = 1 + r - x := by
    rw [abs_of_nonneg (by linarith : (0 : ℚ) ≤ 1 - (x - r))]
    ring
  have habs3 : |1 + r| = 1 + r := abs_of_nonneg (by linarith)
  unfold ResolveCollision
  simp only [GetBoxBounds, centerCube]
  norm_num
  rw [if_neg (by linarith : ¬(x + r + 1 < 1 - (x - r)))]
  rw [if_neg (by linarith : ¬(r + 1 < 1 + r))]
  rw [habs1, habs3]
  rw [if_pos (by linarith : 1 + r - x < 1 + r)]
  simp only [Vec3.mk.injEq]
  exact ⟨by ring, trivial, trivial⟩

/-- One frame of the C1 approach scenario: the player moves toward `-x` by
`dx` (the frame's horizontal integration `x += velocity.x · dt` with
`velocity.x ≤ 0`), holding the scenario's eye height `y = 1` and centered
approach `z = 0`, and the frame's horizontal collision loop (main.cpp lines
354-359) then resolves against the center cube. -/
def approachStep (r h dx x : ℚ) : ℚ :=
  (resolveHorizontalCollisions ⟨x + dx, 1, 0⟩ r h [centerCube]).x

/-- Iterated frames of the approach scenario starting from `x0`. -/
def approachIterate (r h dx x0 : ℚ) : ℕ → ℚ
  | 0 => x0
  | n + 1 => approachStep r h dx (approachIterate r h dx x0 n)

theorem approach_step_invariant (r h dx x : ℚ) (hr : 0 < r) (hh : 0 ≤ h)
    (hdx1 : -(1 + r) < dx) (hx : 1 + r ≤ x) :
    1 + r ≤ approachStep r h dx x := by
  unfold approachStep
  rw [resolveHorizontalCollisions_single]
  by_cases hc : x + dx < 1 + r
  · have hx0 : 0 < x + dx := by linarith
    rw [if_pos (shouldApply_approach r h (x + dx) hr hh hx0 hc)]
    rw [resolve_approach r h (x + dx) hr hx0 hc]
  · push_neg at hc
    rw [if_neg (by
      rw [shouldApply_approach_far r h (x + dx) hc]
      exact Bool.false_ne_true)]
    dsimp only
    linarith

/-- C1: in the approach scenario against the center cube (player at eye
height y = 1, centered on z = 0, moving toward -x from x = +5 by at most
`1 + r` per frame), the per-frame horizontal collision resolution clamps
position.x: whenever a frame starts at `x ≥ 1 + r = boxMaxX + radius`, it
ends at `x ≥ 1 + r` again, and hence every frame of the trajectory from
x = 5 satisfies `x ≥ boxMaxX + radius` — the player's AABB never penetrates
the obstacle's x-bound. -/
theorem approach_never_penetrates (r h dx : ℚ) (hr : 0 < r) (hr4 : r ≤ 4)
    (hh : 0 ≤ h) (hdx1 : -(1 + r) < dx) (hdx2 : dx ≤ 0) :
    (∀ x : ℚ, 1 + r ≤ x → 1 + r ≤ approachStep r h dx x) ∧
    ∀ n : ℕ, 1 + r ≤ approachIterate r h dx 5 n := by
  refine ⟨fun x hx => approach_step_invariant r h dx x hr hh hdx1 hx, ?_⟩
  intro n
  induction n with
  | zero =>
    show 1 + r ≤ (5 : ℚ)
    linarith
  | succ n ih =>
    show 1 + r ≤ approachStep r h dx (approachIterate r h dx 5 n)
    exact approach_step_invariant r h dx _ hr hh hdx1 ih

/-- C1 witness: radius 0.3, height 1.8, one unit toward -x per frame. -/
theorem approach_never_penetrates_witness :
    (0 : ℚ) < 3/10 ∧ (3/10 : ℚ) ≤ 4 ∧ (0 : ℚ) ≤ 9/5 ∧
    -(1 + 3/10 : ℚ) < -1 ∧ (-1 : ℚ) ≤ 0 ∧
    ((∀ x : ℚ, 1 + 3/10 ≤ x → 1 + 3/10 ≤ approachStep (3/10) (9/5) (-1) x) ∧
      ∀ n : ℕ, 1 + 3/10 ≤ approachIterate (3/10) (9/5) (-1) 5 n) :=
  ⟨by norm_num, by norm_num, by norm_num, by norm_num, by norm_num,
    approach_never_penetrates (3/10) (9/5) (-1) (by norm_num) (by norm_num)
      (by norm_num) (by norm_num) (by norm_num)⟩
